import Mathlib

/-!
# Verification of the appointment API handler (`src/api/appointment.js`)

Shallow embedding of the single HTTP entry point that manages appointment
records: token validation (`decodeJWT`), the role gate (`checkAuthorization`)
and the four operations (list / create / reassign / delete) dispatched by
`module.exports`.

Modelling conventions:
* The MongoDB store is a record of lists (`DB`); `findById` is the first
  list element with a matching `_id`, `updateOne` updates the first match,
  `findByIdAndDelete` erases the first match.
* `jwt.verify` is an external library call; it is part of the environment
  (`Env.verify`), returning either the decoded claims or the message of the
  error it throws.
* The Express response object is modelled by `ExecState.sent`: the first
  `res.status(..).json(..)` records the response; any later send raises
  `ERR_HTTP_HEADERS_SENT` (`JsError.headersSent`), exactly as node does.
  `res.status(..).json(..)` returns the (truthy) response object, which is
  why `decodeJWT`'s failure return value passes the `!decoded` checks in the
  callers; this is captured by `DecodedOrRes.resObj`.
* The final `catch` block of `module.exports` calls `handleServerError`,
  which is not defined anywhere (ReferenceError), after evaluating
  `err.response.status` on errors that have no `response` field (TypeError):
  every fault that reaches the catch block therefore crashes the handler
  instead of producing a response.  This is the `Outcome.crashed` case,
  which records what (if anything) the client had already been sent.
-/

namespace Appointment

/-- Decoded JWT payload.  `id` is the subject account id, `exp` the expiry
in seconds since epoch, `error` the (JS-truthy) `error` claim checked by the
callers' `decoded.error` guard. -/
structure Claims where
  id : String
  exp : Nat
  error : Bool
deriving DecidableEq, Repr

/-- A user (account) document: `models/users.js` fields used by the API. -/
structure User where
  _id : String
  account_name : String
  /-- the role; JS-falsy (absent) is modelled as `""` -/
  account_type : String
  /-- denormalized current appointment name -/
  appointment : Option String
deriving DecidableEq, Repr

/-- An appointment document: `models/appointment.js` fields used by the API. -/
structure Appt where
  _id : String
  appointment_name : String
  account_type : String
  account_id : String
deriving DecidableEq, Repr

/-- The persistent store: users, appointments and the consumed-token log. -/
structure DB where
  users : List User
  appointments : List Appt
  usedTokens : List String
deriving DecidableEq, Repr

/-- Environment: the `jwt.verify` call with the server secret (returns the
decoded claims or the thrown error's message), the current time
(`Date.now()`, milliseconds), whether `connectToDatabase()` throws, and the
ObjectId the driver generates for a `new Appointment(...)`. -/
structure Env where
  verify : String → Except String Claims
  nowMs : Nat
  connectFails : Bool
  freshId : String

/-- The four distinguishable failures of the token validator. -/
inductive AuthFailure where
  | missingCredential
  | invalidSignature (libMsg : String)
  | expired
  | alreadyUsed
deriving DecidableEq, Repr

/-- The message carried by the 401 response for each failure: the thrown
`Error`'s message in `decodeJWT`'s catch block. -/
def AuthFailure.message : AuthFailure → String
  | .missingCredential => "Missing authorization token"
  | .invalidSignature m => m
  | .expired => "Token expired"
  | .alreadyUsed => "Token already used"

/-- Function `decodeJWT` (src/api/appointment.js:10-25), the pure validation part:
missing token, `jwt.verify` failure, `decoded.exp < Date.now() / 1000`
(expressed over integers as `exp * 1000 < nowMs`), then the consumed-token
log lookup `Token.findOne({ token })`.  The `if (!decoded)` check on line 14
is unreachable: `jwt.verify` either throws or returns the (truthy) payload. -/
def decodeJWT (env : Env) (db : DB) (token : Option String) :
    Except AuthFailure Claims :=
  match token with
  | none => .error .missingCredential
  | some t =>
    match env.verify t with
    | .error m => .error (.invalidSignature m)
    | .ok decoded =>
      if decoded.exp * 1000 < env.nowMs then .error .expired
      else if db.usedTokens.contains t then .error .alreadyUsed
      else .ok decoded

/-- Function `checkAuthorization` (src/api/appointment.js:27-31).  In the source it
sends the error response itself and returns the (truthy) response object or
`null`; here it returns the status/message to send, `none` meaning the gate
passes. -/
def checkAuthorization (tokenType : String)
    (allowed : List String := ["Admin", "Officer", "Primer", "Boy"]) :
    Option (Nat × String) :=
  if tokenType = "" then some (400, "Missing token type")
  else if !(allowed.contains tokenType) then some (403, "Invalid token type")
  else none

end Appointment

namespace Appointment

/-- One element of the GET response array: either the appointment enriched
with the holder's `account_name` and canonical `_id`, or (when the account
no longer exists) the raw appointment document. -/
inductive ListedItem where
  | enriched (a : Appt) (account_name : String) (account_id : String)
  | plain (a : Appt)
deriving DecidableEq, Repr

/-- Response body: an error/success `message`, the GET list payload, or the
empty body of `res.end()`. -/
inductive Body where
  | message (s : String)
  | list (items : List ListedItem)
  | empty
deriving DecidableEq, Repr

/-- A sent HTTP response. -/
structure Response where
  status : Nat
  body : Body
deriving DecidableEq, Repr

/-- Faults that propagate to the outer `catch`. -/
inductive JsError where
  /-- a second `res.status(..).json(..)` after a response was sent -/
  | headersSent
  /-- any other fault, e.g. `connectToDatabase()` failing -/
  | other (msg : String)
deriving DecidableEq, Repr

/-- Mutable per-request state: the store and the response sent so far. -/
structure ExecState where
  db : DB
  sent : Option Response
deriving DecidableEq, Repr

/-- Model of `res.status(status).json(body)`: records the first response, raises
`ERR_HTTP_HEADERS_SENT` on any later attempt. -/
def sendJson (status : Nat) (body : Body) (st : ExecState) :
    Except JsError Response × ExecState :=
  match st.sent with
  | some _ => (.error .headersSent, st)
  | none => (.ok ⟨status, body⟩, { st with sent := some ⟨status, body⟩ })

/-- Send a `{ message: msg }` error/success response, discarding the
returned response object. -/
def sendMsg (status : Nat) (msg : String) (st : ExecState) :
    Except JsError Unit × ExecState :=
  match sendJson status (.message msg) st with
  | (.ok _, st') => (.ok (), st')
  | (.error e, st') => (.error e, st')

/-- Sequencing with fault propagation (an uncaught JS throw aborts the
handler body and lands in the outer catch). -/
def step {α : Type} (r : Except JsError α × ExecState)
    (k : α → ExecState → Except JsError Unit × ExecState) :
    Except JsError Unit × ExecState :=
  match r with
  | (.ok a, st) => k a st
  | (.error e, st) => (.error e, st)

/-- JS `String.prototype.toUpperCase()` on the ASCII strings involved. -/
def toUpperCase (s : String) : String := String.mk (s.data.map Char.toUpper)

/-- JS `String.prototype.toLowerCase()` on the ASCII strings involved. -/
def toLowerCase (s : String) : String := String.mk (s.data.map Char.toLower)

end Appointment

namespace Appointment

/-- Return value of `decodeJWT(token, res)` as called by the handlers: on success the
decoded claims; on failure `res.status(401).json({ message })` is sent and
the (truthy) response object is returned. -/
inductive DecodedOrRes where
  | claims (c : Claims)
  | resObj
deriving DecidableEq, Repr

/-- JS-truthiness of `decoded.error`: the `error` claim for a decoded
payload, `undefined` (falsy) on the response object. -/
def DecodedOrRes.errorField : DecodedOrRes → Bool
  | .claims c => c.error
  | .resObj => false

/-- Field access `decoded.id`: the subject id claim, `undefined` on the response object. -/
def DecodedOrRes.idField : DecodedOrRes → Option String
  | .claims c => some c.id
  | .resObj => none

/-- The call `await decodeJWT(authorization, res)` with `sendResponse = true`. -/
def decodeJWTSend (env : Env) (tok : Option String) (st : ExecState) :
    Except JsError DecodedOrRes × ExecState :=
  match decodeJWT env st.db tok with
  | .ok c => (.ok (.claims c), st)
  | .error f =>
    match sendJson 401 (.message f.message) st with
    | (.ok _, st') => (.ok .resObj, st')
    | (.error e, st') => (.error e, st')

/-- Lookup `User.findById(id)`: `findById(undefined)` yields `null`; otherwise the
first user whose `_id` matches. -/
def findUserById (db : DB) (id : Option String) : Option User :=
  match id with
  | none => none
  | some i => db.users.find? (fun u => u._id == i)

/-- Lookup `Appointment.findById(id)`. -/
def findApptById (db : DB) (id : String) : Option Appt :=
  db.appointments.find? (fun a => a._id == id)

/-- Model of a mongoose update-one by id: update the first matching document. -/
def updateFirst {α : Type} (p : α → Bool) (f : α → α) : List α → List α
  | [] => []
  | x :: xs => if p x then f x :: xs else x :: updateFirst p f xs

/-- JS truthiness of an optional string field (absent or `""` is falsy). -/
def truthy : Option String → Bool
  | none => false
  | some s => s ≠ ""

/-- Request body fields read by the POST and PUT cases (`req.body || {}`). -/
structure ReqBody where
  appointment_name : Option String := none
  account_type : Option String := none
  account_id : Option String := none
  appointment_id : Option String := none
deriving DecidableEq, Repr

/-- An incoming request: HTTP method, `x-route` header, the `token` cookie,
the body, and the `id` query parameter (`req.query?.id`). -/
structure Req where
  method : String
  route : Option String
  token : Option String
  body : ReqBody
  queryId : Option String
deriving DecidableEq, Repr

/-- The `GET /get_appointments` enrichment of one appointment
(src/api/appointment.js:62-75): resolve the holder and attach
`account_name` and the canonical `account_id`, or return the document
unmodified when the account no longer exists. -/
def enrich (db : DB) (a : Appt) : ListedItem :=
  match db.users.find? (fun u => u._id == a.account_id) with
  | some u => .enriched a u.account_name u._id
  | none => .plain a

/-- The full GET payload, in the store's natural order. -/
def getAppointments (db : DB) : List ListedItem :=
  db.appointments.map (enrich db)

/-- Case `GET /get_appointments` (src/api/appointment.js:57-78).  Note the result
of `decodeJWT` is discarded: on auth failure the 401 has been sent and the
loop and the `res.status(200).json(...)` still execute, the latter raising
`headersSent`. -/
def runGet (env : Env) (req : Req) (st : ExecState) :
    Except JsError Unit × ExecState :=
  step (decodeJWTSend env req.token st) fun _ st1 =>
  step (sendJson 200 (.list (getAppointments st1.db)) st1) fun _ st2 =>
  (.ok (), st2)

/-- Case `POST /create_appointment` (src/api/appointment.js:80-98).  The guard
`if (!decoded || decoded.error) return` only fires on a truthy `error`
claim: the failure return value is the response object, which is truthy and
has no `error` field. -/
def runCreate (env : Env) (req : Req) (st : ExecState) :
    Except JsError Unit × ExecState :=
  step (decodeJWTSend env req.token st) fun decoded st1 =>
  if decoded.errorField then (.ok (), st1)
  else
    match findUserById st1.db decoded.idField with
    | none => sendMsg 404 "User not found" st1
    | some user =>
      match checkAuthorization user.account_type ["Officer", "Admin"] with
      | some (status, msg) => sendMsg status msg st1
      | none =>
        if !(truthy req.body.appointment_name) || !(truthy req.body.account_type)
            || !(truthy req.body.account_id) then
          sendMsg 400 "Missing appointment details" st1
        else
          let an := req.body.appointment_name.getD ""
          let aty := req.body.account_type.getD ""
          let aid := req.body.account_id.getD ""
          let st2 := { st1 with db := { st1.db with
            appointments := st1.db.appointments ++ [Appt.mk env.freshId an aty aid] } }
          let st3 := { st2 with db := { st2.db with
            users := updateFirst (fun u => u._id == aid)
              (fun u => { u with appointment := some an }) st2.db.users } }
          sendMsg 201 "Appointment created successfully" st3

/-- Case `PUT /update_appointment` (src/api/appointment.js:100-118): sets the
appointment's `account_id`; no `User` document is touched. -/
def runUpdate (env : Env) (req : Req) (st : ExecState) :
    Except JsError Unit × ExecState :=
  step (decodeJWTSend env req.token st) fun decoded st1 =>
  if decoded.errorField then (.ok (), st1)
  else
    match findUserById st1.db decoded.idField with
    | none => sendMsg 404 "User not found" st1
    | some user =>
      match checkAuthorization user.account_type ["Officer", "Admin"] with
      | some (status, msg) => sendMsg status msg st1
      | none =>
        if !(truthy req.body.account_id) || !(truthy req.body.appointment_id) then
          sendMsg 400 "Missing appointment ID or account ID" st1
        else
          let aid := req.body.account_id.getD ""
          let apid := req.body.appointment_id.getD ""
          match findApptById st1.db apid with
          | none => sendMsg 404 "Appointment not found" st1
          | some _ =>
            let st2 := { st1 with db := { st1.db with
              appointments := updateFirst (fun a => a._id == apid)
                (fun a => { a with account_id := aid }) st1.db.appointments } }
            sendMsg 200 "Appointment updated successfully" st2

/-- The protected core appointment names (src/api/appointment.js:136). -/
def protectedNames : List String :=
  ["csm", "captain", "dy csm", "sec 4/5 ps", "sec 3 ps", "sec 2 ps", "sec 1 ps"]

/-- Case `DELETE /delete_appointment` (src/api/appointment.js:120-140): protected
names (lower-cased) are refused with 403 before the delete. -/
def runDelete (env : Env) (req : Req) (st : ExecState) :
    Except JsError Unit × ExecState :=
  step (decodeJWTSend env req.token st) fun decoded st1 =>
  if decoded.errorField then (.ok (), st1)
  else
    match findUserById st1.db decoded.idField with
    | none => sendMsg 404 "User not found" st1
    | some user =>
      match checkAuthorization user.account_type ["Officer", "Admin"] with
      | some (status, msg) => sendMsg status msg st1
      | none =>
        if !(truthy req.queryId) then
          sendMsg 400 "Missing appointment ID" st1
        else
          let apid := req.queryId.getD ""
          match findApptById st1.db apid with
          | none => sendMsg 404 "Appointment not found" st1
          | some appt =>
            if protectedNames.contains (toLowerCase appt.appointment_name) then
              sendMsg 403 "Core appointments cannot be deleted" st1
            else
              let st2 := { st1 with db := { st1.db with
                appointments := st1.db.appointments.eraseP (fun a => a._id == apid) } }
              sendMsg 200 "Appointment deleted successfully" st2

/-- The call `await connectToDatabase()`: may throw a store-connectivity fault. -/
def connectDB (env : Env) (st : ExecState) : Except JsError Unit × ExecState :=
  if env.connectFails then (.error (.other "store connection failure"), st)
  else (.ok (), st)

/-- The body of the `try` block (src/api/appointment.js:45-144): the
missing-route check, `connectToDatabase()`, and the `routeKey` switch. -/
def innerHandler (env : Env) (req : Req) (st : ExecState) :
    Except JsError Unit × ExecState :=
  if truthy req.route = false then sendMsg 401 "Missing route in headers" st
  else
    let routeKey := toUpperCase req.method ++ " " ++ req.route.getD ""
    step (connectDB env st) fun _ st1 =>
    if routeKey = "GET /get_appointments" then runGet env req st1
    else if routeKey = "POST /create_appointment" then runCreate env req st1
    else if routeKey = "PUT /update_appointment" then runUpdate env req st1
    else if routeKey = "DELETE /delete_appointment" then runDelete env req st1
    else sendMsg 404 "Route not found" st1

/-- What a whole invocation of the module does, as observed from outside. -/
inductive Outcome where
  /-- the handler returned normally, having sent `resp` -/
  | responded (resp : Response) (db : DB)
  /-- a fault reached the final `catch`, whose own body faults
  (`handleServerError` is undefined and `err.response` may be too): the
  invocation dies with an unhandled rejection; `clientSaw` is the response
  (if any) already delivered before the fault -/
  | crashed (clientSaw : Option Response) (db : DB)
  /-- the handler returned without ever sending a response -/
  | hung (db : DB)
deriving DecidableEq, Repr

/-- Fold a finished run into the observable `Outcome`. -/
def outcomeOf : Except JsError Unit × ExecState → Outcome
  | (.ok _, st) =>
    match st.sent with
    | some r => .responded r st.db
    | none => .hung st.db
  | (.error _, st) => .crashed st.sent st.db

/-- The exported handler `module.exports` (src/api/appointment.js:33-149).  CORS header emission
is transport plumbing and not modelled; `OPTIONS` short-circuits with 200;
everything else runs `innerHandler` under the try/catch whose catch block
always crashes (see `Outcome.crashed`). -/
def module_exports (env : Env) (req : Req) (db : DB) : Outcome :=
  if req.method = "OPTIONS" then .responded ⟨200, .empty⟩ db
  else outcomeOf (innerHandler env req ⟨db, none⟩)

end Appointment

namespace Appointment

/-- Concrete environment for witnesses: `jwt.verify` recognises a few fixed
tokens; current time 50000 ms. -/
def envW : Env where
  verify := fun t =>
    if t = "tokOK" then .ok ⟨"u1", 100, false⟩
    else if t = "tokBoy" then .ok ⟨"u2", 100, false⟩
    else if t = "tokEve" then .ok ⟨"u3", 100, false⟩
    else if t = "tokExp" then .ok ⟨"u1", 1, false⟩
    else if t = "tokUsed" then .ok ⟨"u1", 100, false⟩
    else .error "invalid signature"
  nowMs := 50000
  connectFails := false
  freshId := "fresh1"

/-- The environment `envW` with a failing store connection. -/
def envConnFail : Env := { envW with connectFails := true }

/-- Concrete store for witnesses: an Officer, a Boy, a role-less account;
a protected appointment, a plain one, and one whose holder is gone. -/
def dbW : DB where
  users :=
    [⟨"u1", "Alice", "Officer", some "Captain"⟩,
     ⟨"u2", "Bob", "Boy", none⟩,
     ⟨"u3", "Eve", "", none⟩]
  appointments :=
    [⟨"a1", "Captain", "Officer", "u1"⟩,
     ⟨"a2", "Quartermaster", "Boy", "u2"⟩,
     ⟨"a3", "Scribe", "Boy", "ghost"⟩]
  usedTokens := ["tokUsed"]

/-- GET list request with a valid Officer token. -/
def reqGetW : Req := ⟨"GET", some "/get_appointments", some "tokOK", {}, none⟩

/-- GET list request with no `token` cookie. -/
def reqGetNoTok : Req := ⟨"GET", some "/get_appointments", none, {}, none⟩

/-- Valid create request binding appointment "Scout" to account `u2`. -/
def reqCreateW : Req :=
  ⟨"POST", some "/create_appointment", some "tokOK",
    { appointment_name := some "Scout", account_type := some "Boy",
      account_id := some "u2" }, none⟩

/-- The same create request issued by the Boy-role account `u2`. -/
def reqCreateBoy : Req := { reqCreateW with token := some "tokBoy" }

/-- Create request missing the `account_type` body field. -/
def reqCreateMissing : Req :=
  ⟨"POST", some "/create_appointment", some "tokOK",
    { appointment_name := some "Scout", account_type := none,
      account_id := some "u2" }, none⟩

/-- Reassign appointment `a1` to account `u2`. -/
def reqUpdateW : Req :=
  ⟨"PUT", some "/update_appointment", some "tokOK",
    { account_id := some "u2", appointment_id := some "a1" }, none⟩

/-- Delete the protected appointment `a1` ("Captain"). -/
def reqDeleteProt : Req := ⟨"DELETE", some "/delete_appointment", some "tokOK", {}, some "a1"⟩

/-- Delete the unprotected appointment `a2` ("Quartermaster"). -/
def reqDeleteW : Req := ⟨"DELETE", some "/delete_appointment", some "tokOK", {}, some "a2"⟩

end Appointment

namespace Appointment

/-- Updating the first match keeps it findable, now updated, provided
the update preserves the selector. -/
theorem updateFirst_find? {α : Type} (p : α → Bool) (f : α → α)
    (l : List α) (x : α) (hx : l.find? p = some x) (hpf : p (f x) = true) :
    (updateFirst p f l).find? p = some (f x) := by
  induction l with
  | nil => simp [List.find?] at hx
  | cons y ys ih =>
    by_cases hy : p y
    · rw [List.find?_cons_of_pos _ hy] at hx
      injection hx with hx
      subst hx
      rw [updateFirst, if_pos hy, List.find?_cons_of_pos _ hpf]
    · rw [List.find?_cons_of_neg _ hy] at hx
      rw [updateFirst, if_neg hy, List.find?_cons_of_neg _ hy]
      exact ih hx

/-- Dispatch: a GET `/get_appointments` request reaches `runGet`. -/
theorem dispatch_get (env : Env) (req : Req) (db : DB)
    (hm : req.method = "GET") (hr : req.route = some "/get_appointments")
    (hcf : env.connectFails = false) :
    module_exports env req db = outcomeOf (runGet env req ⟨db, none⟩) := by
  simp only [module_exports, innerHandler, connectDB, step, hm, hr, hcf]
  rfl

/-- Dispatch: a POST `/create_appointment` request reaches `runCreate`. -/
theorem dispatch_create (env : Env) (req : Req) (db : DB)
    (hm : req.method = "POST") (hr : req.route = some "/create_appointment")
    (hcf : env.connectFails = false) :
    module_exports env req db = outcomeOf (runCreate env req ⟨db, none⟩) := by
  simp only [module_exports, innerHandler, connectDB, step, hm, hr, hcf]
  rfl

/-- Dispatch: a PUT `/update_appointment` request reaches `runUpdate`. -/
theorem dispatch_update (env : Env) (req : Req) (db : DB)
    (hm : req.method = "PUT") (hr : req.route = some "/update_appointment")
    (hcf : env.connectFails = false) :
    module_exports env req db = outcomeOf (runUpdate env req ⟨db, none⟩) := by
  simp only [module_exports, innerHandler, connectDB, step, hm, hr, hcf]
  rfl

/-- Dispatch: a DELETE `/delete_appointment` request reaches `runDelete`. -/
theorem dispatch_delete (env : Env) (req : Req) (db : DB)
    (hm : req.method = "DELETE") (hr : req.route = some "/delete_appointment")
    (hcf : env.connectFails = false) :
    module_exports env req db = outcomeOf (runDelete env req ⟨db, none⟩) := by
  simp only [module_exports, innerHandler, connectDB, step, hm, hr, hcf]
  rfl

/-- GET after a failed token validation: the 401 is sent, the handler keeps
running and its `res.status(200).json(...)` raises `headersSent`. -/
theorem runGet_authFail (env : Env) (req : Req) (db : DB) (f : AuthFailure)
    (hd : decodeJWT env db req.token = .error f) :
    runGet env req ⟨db, none⟩ =
      (.error .headersSent, ⟨db, some ⟨401, .message f.message⟩⟩) := by
  simp only [runGet, decodeJWTSend, hd, sendJson, step]

/-- GET with a valid token returns the enriched list and leaves the store
unchanged. -/
theorem runGet_ok (env : Env) (req : Req) (db : DB) (c : Claims)
    (hd : decodeJWT env db req.token = .ok c) :
    runGet env req ⟨db, none⟩ =
      (.ok (), ⟨db, some ⟨200, .list (getAppointments db)⟩⟩) := by
  simp only [runGet, decodeJWTSend, hd, sendJson, step]

end Appointment

namespace Appointment

/-- Role gate: Officer and Admin pass the `["Officer", "Admin"]` allow-list. -/
theorem checkAuthorization_pass (r : String)
    (h : r = "Officer" ∨ r = "Admin") :
    checkAuthorization r ["Officer", "Admin"] = none := by
  rcases h with h | h <;> subst h <;> rfl

/-- Role gate: an absent/empty role is refused with 400. -/
theorem checkAuthorization_missing (r : String) (h : r = "") :
    checkAuthorization r ["Officer", "Admin"] = some (400, "Missing token type") := by
  subst h; rfl

/-- Role gate: a non-empty role outside the allow-list is refused with 403. -/
theorem checkAuthorization_denied (r : String)
    (h1 : r ≠ "Officer") (h1' : r ≠ "Admin") (h2 : r ≠ "") :
    checkAuthorization r ["Officer", "Admin"] = some (403, "Invalid token type") := by
  simp [checkAuthorization, h1, h1', h2]

/-- POST after a failed token validation: 401 sent, the guard does not fire
(the returned response object is truthy with no `error` field), the user
lookup on `undefined` yields null, and the 404 attempt raises `headersSent`.
No document is written. -/
theorem runCreate_authFail (env : Env) (req : Req) (db : DB) (f : AuthFailure)
    (hd : decodeJWT env db req.token = .error f) :
    runCreate env req ⟨db, none⟩ =
      (.error .headersSent, ⟨db, some ⟨401, .message f.message⟩⟩) := by
  simp only [runCreate, decodeJWTSend, hd, sendJson, step, DecodedOrRes.errorField,
    DecodedOrRes.idField, findUserById, sendMsg]
  rfl

/-- PUT after a failed token validation: as for POST. -/
theorem runUpdate_authFail (env : Env) (req : Req) (db : DB) (f : AuthFailure)
    (hd : decodeJWT env db req.token = .error f) :
    runUpdate env req ⟨db, none⟩ =
      (.error .headersSent, ⟨db, some ⟨401, .message f.message⟩⟩) := by
  simp only [runUpdate, decodeJWTSend, hd, sendJson, step, DecodedOrRes.errorField,
    DecodedOrRes.idField, findUserById, sendMsg]
  rfl

/-- DELETE after a failed token validation: as for POST. -/
theorem runDelete_authFail (env : Env) (req : Req) (db : DB) (f : AuthFailure)
    (hd : decodeJWT env db req.token = .error f) :
    runDelete env req ⟨db, none⟩ =
      (.error .headersSent, ⟨db, some ⟨401, .message f.message⟩⟩) := by
  simp only [runDelete, decodeJWTSend, hd, sendJson, step, DecodedOrRes.errorField,
    DecodedOrRes.idField, findUserById, sendMsg]
  rfl

/-- POST with a valid token whose account fails the role gate: the gate's
response is sent and the store is untouched. -/
theorem runCreate_roleFail (env : Env) (req : Req) (db : DB) (c : Claims)
    (u : User) (s : Nat) (m : String)
    (hd : decodeJWT env db req.token = .ok c) (he : c.error = false)
    (hu : findUserById db (some c.id) = some u)
    (hck : checkAuthorization u.account_type ["Officer", "Admin"] = some (s, m)) :
    runCreate env req ⟨db, none⟩ = (.ok (), ⟨db, some ⟨s, .message m⟩⟩) := by
  simp only [runCreate, decodeJWTSend, hd, step, DecodedOrRes.errorField, he,
    DecodedOrRes.idField, hu, hck, sendMsg, sendJson]
  rfl

/-- PUT with a valid token whose account fails the role gate. -/
theorem runUpdate_roleFail (env : Env) (req : Req) (db : DB) (c : Claims)
    (u : User) (s : Nat) (m : String)
    (hd : decodeJWT env db req.token = .ok c) (he : c.error = false)
    (hu : findUserById db (some c.id) = some u)
    (hck : checkAuthorization u.account_type ["Officer", "Admin"] = some (s, m)) :
    runUpdate env req ⟨db, none⟩ = (.ok (), ⟨db, some ⟨s, .message m⟩⟩) := by
  simp only [runUpdate, decodeJWTSend, hd, step, DecodedOrRes.errorField, he,
    DecodedOrRes.idField, hu, hck, sendMsg, sendJson]
  rfl

/-- DELETE with a valid token whose account fails the role gate. -/
theorem runDelete_roleFail (env : Env) (req : Req) (db : DB) (c : Claims)
    (u : User) (s : Nat) (m : String)
    (hd : decodeJWT env db req.token = .ok c) (he : c.error = false)
    (hu : findUserById db (some c.id) = some u)
    (hck : checkAuthorization u.account_type ["Officer", "Admin"] = some (s, m)) :
    runDelete env req ⟨db, none⟩ = (.ok (), ⟨db, some ⟨s, .message m⟩⟩) := by
  simp only [runDelete, decodeJWTSend, hd, step, DecodedOrRes.errorField, he,
    DecodedOrRes.idField, hu, hck, sendMsg, sendJson]
  rfl

end Appointment

namespace Appointment

/-- POST happy path: the appointment is inserted with exactly the three
submitted fields and the target account's denormalized `appointment` field
is set to the submitted name; responds 201. -/
theorem runCreate_success (env : Env) (req : Req) (db : DB) (c : Claims)
    (u : User) (an aty aid : String)
    (hd : decodeJWT env db req.token = .ok c) (he : c.error = false)
    (hu : findUserById db (some c.id) = some u)
    (hck : checkAuthorization u.account_type ["Officer", "Admin"] = none)
    (han : req.body.appointment_name = some an) (han2 : an ≠ "")
    (hat : req.body.account_type = some aty) (hat2 : aty ≠ "")
    (haid : req.body.account_id = some aid) (haid2 : aid ≠ "") :
    runCreate env req ⟨db, none⟩ =
      (.ok (), ⟨{ db with
          appointments := db.appointments ++ [Appt.mk env.freshId an aty aid],
          users := updateFirst (fun x => x._id == aid)
            (fun x => { x with appointment := some an }) db.users },
        some ⟨201, .message "Appointment created successfully"⟩⟩) := by
  simp only [runCreate, decodeJWTSend, hd, step, DecodedOrRes.errorField, he,
    DecodedOrRes.idField, hu, hck, han, hat, haid, truthy, sendMsg, sendJson]
  simp [han2, hat2, haid2]

/-- POST with a missing body field: 400, nothing written. -/
theorem runCreate_missingField (env : Env) (req : Req) (db : DB) (c : Claims)
    (u : User)
    (hd : decodeJWT env db req.token = .ok c) (he : c.error = false)
    (hu : findUserById db (some c.id) = some u)
    (hck : checkAuthorization u.account_type ["Officer", "Admin"] = none)
    (hmiss : (!(truthy req.body.appointment_name) || !(truthy req.body.account_type)
      || !(truthy req.body.account_id)) = true) :
    runCreate env req ⟨db, none⟩ =
      (.ok (), ⟨db, some ⟨400, .message "Missing appointment details"⟩⟩) := by
  simp only [runCreate, decodeJWTSend, hd, step, DecodedOrRes.errorField, he,
    DecodedOrRes.idField, hu, hck, hmiss, sendMsg, sendJson]
  rfl

/-- PUT happy path: the resolved appointment's `account_id` is set to the
submitted value; no user document is touched; responds 200. -/
theorem runUpdate_success (env : Env) (req : Req) (db : DB) (c : Claims)
    (u : User) (a : Appt) (aid apid : String)
    (hd : decodeJWT env db req.token = .ok c) (he : c.error = false)
    (hu : findUserById db (some c.id) = some u)
    (hck : checkAuthorization u.account_type ["Officer", "Admin"] = none)
    (haid : req.body.account_id = some aid) (haid2 : aid ≠ "")
    (hapid : req.body.appointment_id = some apid) (hapid2 : apid ≠ "")
    (ha : findApptById db apid = some a) :
    runUpdate env req ⟨db, none⟩ =
      (.ok (), ⟨{ db with
          appointments := updateFirst (fun x => x._id == apid)
            (fun x => { x with account_id := aid }) db.appointments },
        some ⟨200, .message "Appointment updated successfully"⟩⟩) := by
  simp only [runUpdate, decodeJWTSend, hd, step, DecodedOrRes.errorField, he,
    DecodedOrRes.idField, hu, hck, haid, hapid, truthy, sendMsg, sendJson]
  simp only [Option.getD_some, ha]
  simp [haid2, hapid2]

/-- DELETE of a protected appointment: 403 before any write. -/
theorem runDelete_protected (env : Env) (req : Req) (db : DB) (c : Claims)
    (u : User) (a : Appt) (apid : String)
    (hd : decodeJWT env db req.token = .ok c) (he : c.error = false)
    (hu : findUserById db (some c.id) = some u)
    (hck : checkAuthorization u.account_type ["Officer", "Admin"] = none)
    (hq : req.queryId = some apid) (hq2 : apid ≠ "")
    (ha : findApptById db apid = some a)
    (hp : protectedNames.contains (toLowerCase a.appointment_name) = true) :
    runDelete env req ⟨db, none⟩ =
      (.ok (), ⟨db, some ⟨403, .message "Core appointments cannot be deleted"⟩⟩) := by
  simp only [runDelete, decodeJWTSend, hd, step, DecodedOrRes.errorField, he,
    DecodedOrRes.idField, hu, hck, hq, truthy, sendMsg, sendJson]
  simp only [Option.getD_some, ha, hp]
  simp [hq2]

/-- DELETE happy path for an unprotected appointment: the record is erased,
no user document is touched; responds 200. -/
theorem runDelete_success (env : Env) (req : Req) (db : DB) (c : Claims)
    (u : User) (a : Appt) (apid : String)
    (hd : decodeJWT env db req.token = .ok c) (he : c.error = false)
    (hu : findUserById db (some c.id) = some u)
    (hck : checkAuthorization u.account_type ["Officer", "Admin"] = none)
    (hq : req.queryId = some apid) (hq2 : apid ≠ "")
    (ha : findApptById db apid = some a)
    (hp : protectedNames.contains (toLowerCase a.appointment_name) = false) :
    runDelete env req ⟨db, none⟩ =
      (.ok (), ⟨{ db with
          appointments := db.appointments.eraseP (fun x => x._id == apid) },
        some ⟨200, .message "Appointment deleted successfully"⟩⟩) := by
  simp only [runDelete, decodeJWTSend, hd, step, DecodedOrRes.errorField, he,
    DecodedOrRes.idField, hu, hck, hq, truthy, sendMsg, sendJson]
  simp only [Option.getD_some, ha, hp]
  simp [hq2]

end Appointment

namespace Appointment

/-- C3: the token validator fails with `MissingCredential` when no token is
supplied, `InvalidSignature` when `jwt.verify` rejects the token, `Expired`
when the embedded expiry (seconds) is strictly less than the current time in
seconds, `AlreadyUsed` when the exact token string is in the consumed-token
log, and otherwise returns the decoded claims (containing the subject id). -/
theorem token_validator_cases (env : Env) (db : DB) :
    (decodeJWT env db none = .error .missingCredential)
    ∧ (∀ t m, env.verify t = .error m →
        decodeJWT env db (some t) = .error (.invalidSignature m))
    ∧ (∀ t c, env.verify t = .ok c → c.exp * 1000 < env.nowMs →
        decodeJWT env db (some t) = .error .expired)
    ∧ (∀ t c, env.verify t = .ok c → ¬ c.exp * 1000 < env.nowMs →
        db.usedTokens.contains t = true →
        decodeJWT env db (some t) = .error .alreadyUsed)
    ∧ (∀ t c, env.verify t = .ok c → ¬ c.exp * 1000 < env.nowMs →
        db.usedTokens.contains t = false →
        decodeJWT env db (some t) = .ok c) := by
  refine ⟨rfl, ?_, ?_, ?_, ?_⟩
  · intro t m hv
    simp [decodeJWT, hv]
  · intro t c hv he
    simp [decodeJWT, hv, he]
  · intro t c hv he hc
    simp [decodeJWT, hv, he]
    simpa using hc
  · intro t c hv he hc
    simp [decodeJWT, hv, he]
    simpa using hc

/-- Witness for `token_validator_cases` at the concrete environment `envW`:
one token per validation outcome. -/
theorem token_validator_cases_witness :
    decodeJWT envW dbW none = .error .missingCredential
    ∧ decodeJWT envW dbW (some "tokBad") = .error (.invalidSignature "invalid signature")
    ∧ decodeJWT envW dbW (some "tokExp") = .error .expired
    ∧ decodeJWT envW dbW (some "tokUsed") = .error .alreadyUsed
    ∧ decodeJWT envW dbW (some "tokOK") = .ok ⟨"u1", 100, false⟩ :=
  ⟨(token_validator_cases envW dbW).1,
   (token_validator_cases envW dbW).2.1 "tokBad" "invalid signature" rfl,
   (token_validator_cases envW dbW).2.2.1 "tokExp" ⟨"u1", 1, false⟩ rfl (by decide),
   (token_validator_cases envW dbW).2.2.2.1 "tokUsed" ⟨"u1", 100, false⟩ rfl
     (by decide) rfl,
   (token_validator_cases envW dbW).2.2.2.2 "tokOK" ⟨"u1", 100, false⟩ rfl
     (by decide) rfl⟩

/-- C2: on any of the four operations, a request whose credential fails
token validation gets exactly the 401 response carrying the failure message
and the store is not written; the handler then crashes on its follow-up
send, so no appointment data ever reaches the client. -/
theorem auth_failure_no_effect
    (env : Env) (req : Req) (db : DB) (f : AuthFailure)
    (hroute : (req.method = "GET" ∧ req.route = some "/get_appointments")
      ∨ (req.method = "POST" ∧ req.route = some "/create_appointment")
      ∨ (req.method = "PUT" ∧ req.route = some "/update_appointment")
      ∨ (req.method = "DELETE" ∧ req.route = some "/delete_appointment"))
    (hcf : env.connectFails = false)
    (hd : decodeJWT env db req.token = .error f) :
    module_exports env req db = .crashed (some ⟨401, .message f.message⟩) db := by
  rcases hroute with ⟨hm, hr⟩ | ⟨hm, hr⟩ | ⟨hm, hr⟩ | ⟨hm, hr⟩
  · rw [dispatch_get env req db hm hr hcf, runGet_authFail env req db f hd]
    rfl
  · rw [dispatch_create env req db hm hr hcf, runCreate_authFail env req db f hd]
    rfl
  · rw [dispatch_update env req db hm hr hcf, runUpdate_authFail env req db f hd]
    rfl
  · rw [dispatch_delete env req db hm hr hcf, runDelete_authFail env req db f hd]
    rfl

/-- Witness for `auth_failure_no_effect`: GET with no `token` cookie. -/
theorem auth_failure_no_effect_witness :
    module_exports envW reqGetNoTok dbW =
      .crashed (some ⟨401, .message AuthFailure.missingCredential.message⟩) dbW :=
  auth_failure_no_effect envW reqGetNoTok dbW .missingCredential
    (Or.inl ⟨rfl, rfl⟩) rfl rfl

/-- C4: on the three mutating operations with a valid credential and an
existing caller account, an empty role is refused with 400 (`Missing token
type`), a role outside {Officer, Admin} (e.g. Primer, Boy) is refused with
403 (`Invalid token type`) — in both cases the store is unchanged — and for
Officer or Admin the role gate passes. -/
theorem role_gate_mutating_ops
    (env : Env) (req : Req) (db : DB) (c : Claims) (u : User)
    (hroute : (req.method = "POST" ∧ req.route = some "/create_appointment")
      ∨ (req.method = "PUT" ∧ req.route = some "/update_appointment")
      ∨ (req.method = "DELETE" ∧ req.route = some "/delete_appointment"))
    (hcf : env.connectFails = false)
    (hd : decodeJWT env db req.token = .ok c) (he : c.error = false)
    (hu : findUserById db (some c.id) = some u) :
    (u.account_type = "" →
      module_exports env req db =
        .responded ⟨400, .message "Missing token type"⟩ db)
    ∧ (u.account_type ≠ "Officer" → u.account_type ≠ "Admin" →
        u.account_type ≠ "" →
      module_exports env req db =
        .responded ⟨403, .message "Invalid token type"⟩ db)
    ∧ ((u.account_type = "Officer" ∨ u.account_type = "Admin") →
      checkAuthorization u.account_type ["Officer", "Admin"] = none) := by
  refine ⟨?_, ?_, fun h => checkAuthorization_pass _ h⟩
  · intro hrole
    have hck := checkAuthorization_missing _ hrole
    rcases hroute with ⟨hm, hr⟩ | ⟨hm, hr⟩ | ⟨hm, hr⟩
    · rw [dispatch_create env req db hm hr hcf,
        runCreate_roleFail env req db c u _ _ hd he hu hck]
      rfl
    · rw [dispatch_update env req db hm hr hcf,
        runUpdate_roleFail env req db c u _ _ hd he hu hck]
      rfl
    · rw [dispatch_delete env req db hm hr hcf,
        runDelete_roleFail env req db c u _ _ hd he hu hck]
      rfl
  · intro h1 h2 h3
    have hck := checkAuthorization_denied _ h1 h2 h3
    rcases hroute with ⟨hm, hr⟩ | ⟨hm, hr⟩ | ⟨hm, hr⟩
    · rw [dispatch_create env req db hm hr hcf,
        runCreate_roleFail env req db c u _ _ hd he hu hck]
      rfl
    · rw [dispatch_update env req db hm hr hcf,
        runUpdate_roleFail env req db c u _ _ hd he hu hck]
      rfl
    · rw [dispatch_delete env req db hm hr hcf,
        runDelete_roleFail env req db c u _ _ hd he hu hck]
      rfl

/-- Witness for `role_gate_mutating_ops`: the Boy-role account `u2` is
refused a create with 403 and no write. -/
theorem role_gate_mutating_ops_witness :
    module_exports envW reqCreateBoy dbW =
      .responded ⟨403, .message "Invalid token type"⟩ dbW :=
  (role_gate_mutating_ops envW reqCreateBoy dbW ⟨"u2", 100, false⟩
    ⟨"u2", "Bob", "Boy", none⟩ (Or.inl ⟨rfl, rfl⟩) rfl rfl rfl rfl).2.1
    (by decide) (by decide) (by decide)

end Appointment

namespace Appointment

/-- C1: a Delete request with a valid Officer/Admin credential whose id
resolves to an appointment whose lower-cased name is protected returns the
403 `Core appointments cannot be deleted` response, and the store —
including that appointment record — is unchanged. -/
theorem delete_protected_rejected
    (env : Env) (req : Req) (db : DB) (c : Claims) (u : User) (a : Appt)
    (apid : String)
    (hm : req.method = "DELETE") (hr : req.route = some "/delete_appointment")
    (hcf : env.connectFails = false)
    (hd : decodeJWT env db req.token = .ok c) (he : c.error = false)
    (hu : findUserById db (some c.id) = some u)
    (hrole : u.account_type = "Officer" ∨ u.account_type = "Admin")
    (hq : req.queryId = some apid) (hq2 : apid ≠ "")
    (ha : findApptById db apid = some a)
    (hp : protectedNames.contains (toLowerCase a.appointment_name) = true) :
    module_exports env req db =
      .responded ⟨403, .message "Core appointments cannot be deleted"⟩ db
    ∧ a ∈ db.appointments := by
  constructor
  · rw [dispatch_delete env req db hm hr hcf,
      runDelete_protected env req db c u a apid hd he hu
        (checkAuthorization_pass _ hrole) hq hq2 ha hp]
    rfl
  · have ha' := ha
    simp only [findApptById] at ha'
    exact List.mem_of_find?_eq_some ha'

/-- Witness for `delete_protected_rejected`: deleting `a1` ("Captain"). -/
theorem delete_protected_rejected_witness :
    module_exports envW reqDeleteProt dbW =
      .responded ⟨403, .message "Core appointments cannot be deleted"⟩ dbW
    ∧ (⟨"a1", "Captain", "Officer", "u1"⟩ : Appt) ∈ dbW.appointments :=
  delete_protected_rejected envW reqDeleteProt dbW ⟨"u1", 100, false⟩
    ⟨"u1", "Alice", "Officer", some "Captain"⟩ ⟨"a1", "Captain", "Officer", "u1"⟩
    "a1" rfl rfl rfl rfl rfl rfl (Or.inl rfl) rfl (by decide) rfl rfl

/-- C5: a Create with a valid Officer/Admin credential and the three body
fields present succeeds with 201, inserts a new appointment carrying exactly
the submitted values, and afterwards the target account's denormalized
`appointment` field equals the submitted name. -/
theorem create_success_denormalizes
    (env : Env) (req : Req) (db : DB) (c : Claims) (u t : User)
    (an aty aid : String)
    (hm : req.method = "POST") (hr : req.route = some "/create_appointment")
    (hcf : env.connectFails = false)
    (hd : decodeJWT env db req.token = .ok c) (he : c.error = false)
    (hu : findUserById db (some c.id) = some u)
    (hrole : u.account_type = "Officer" ∨ u.account_type = "Admin")
    (han : req.body.appointment_name = some an) (han2 : an ≠ "")
    (hat : req.body.account_type = some aty) (hat2 : aty ≠ "")
    (haid : req.body.account_id = some aid) (haid2 : aid ≠ "")
    (ht : db.users.find? (fun x => x._id == aid) = some t) :
    module_exports env req db =
      .responded ⟨201, .message "Appointment created successfully"⟩
        { db with
          appointments := db.appointments ++ [Appt.mk env.freshId an aty aid],
          users := updateFirst (fun x => x._id == aid)
            (fun x => { x with appointment := some an }) db.users }
    ∧ (updateFirst (fun x => x._id == aid)
        (fun x => { x with appointment := some an }) db.users).find?
        (fun x => x._id == aid) = some { t with appointment := some an } := by
  constructor
  · rw [dispatch_create env req db hm hr hcf,
      runCreate_success env req db c u an aty aid hd he hu
        (checkAuthorization_pass _ hrole) han han2 hat hat2 haid haid2]
    rfl
  · refine updateFirst_find? _ _ _ t ht ?_
    simpa using List.find?_some ht

/-- Witness for `create_success_denormalizes`: create "Scout" for `u2`. -/
theorem create_success_denormalizes_witness :
    module_exports envW reqCreateW dbW =
      .responded ⟨201, .message "Appointment created successfully"⟩
        { dbW with
          appointments := dbW.appointments ++ [Appt.mk envW.freshId "Scout" "Boy" "u2"],
          users := updateFirst (fun x => x._id == "u2")
            (fun x => { x with appointment := some "Scout" }) dbW.users }
    ∧ (updateFirst (fun x => x._id == "u2")
        (fun x => { x with appointment := some "Scout" }) dbW.users).find?
        (fun x => x._id == "u2")
        = some ⟨"u2", "Bob", "Boy", some "Scout"⟩ :=
  create_success_denormalizes envW reqCreateW dbW ⟨"u1", 100, false⟩
    ⟨"u1", "Alice", "Officer", some "Captain"⟩ ⟨"u2", "Bob", "Boy", none⟩
    "Scout" "Boy" "u2" rfl rfl rfl rfl rfl rfl (Or.inl rfl)
    rfl (by decide) rfl (by decide) rfl (by decide) rfl

/-- C6: a Create missing any of the three body fields (JS-falsy) returns
400 `Missing appointment details` and the store is unchanged: no
appointment inserted, no account modified. -/
theorem create_missing_no_write
    (env : Env) (req : Req) (db : DB) (c : Claims) (u : User)
    (hm : req.method = "POST") (hr : req.route = some "/create_appointment")
    (hcf : env.connectFails = false)
    (hd : decodeJWT env db req.token = .ok c) (he : c.error = false)
    (hu : findUserById db (some c.id) = some u)
    (hrole : u.account_type = "Officer" ∨ u.account_type = "Admin")
    (hmiss : (!(truthy req.body.appointment_name) || !(truthy req.body.account_type)
      || !(truthy req.body.account_id)) = true) :
    module_exports env req db =
      .responded ⟨400, .message "Missing appointment details"⟩ db := by
  rw [dispatch_create env req db hm hr hcf,
    runCreate_missingField env req db c u hd he hu
      (checkAuthorization_pass _ hrole) hmiss]
  rfl

/-- Witness for `create_missing_no_write`: `account_type` absent. -/
theorem create_missing_no_write_witness :
    module_exports envW reqCreateMissing dbW =
      .responded ⟨400, .message "Missing appointment details"⟩ dbW :=
  create_missing_no_write envW reqCreateMissing dbW ⟨"u1", 100, false⟩
    ⟨"u1", "Alice", "Officer", some "Captain"⟩ rfl rfl rfl rfl rfl rfl
    (Or.inl rfl) (by decide)

end Appointment

namespace Appointment

/-- C7: a successful Reassign sets the resolved appointment's `account_id`
to the submitted value and responds 200, while the users collection — and
with it every account's denormalized appointment name, old and new holder
alike — is untouched. -/
theorem reassign_updates_only_appointment
    (env : Env) (req : Req) (db : DB) (c : Claims) (u : User) (a : Appt)
    (aid apid : String)
    (hm : req.method = "PUT") (hr : req.route = some "/update_appointment")
    (hcf : env.connectFails = false)
    (hd : decodeJWT env db req.token = .ok c) (he : c.error = false)
    (hu : findUserById db (some c.id) = some u)
    (hrole : u.account_type = "Officer" ∨ u.account_type = "Admin")
    (haid : req.body.account_id = some aid) (haid2 : aid ≠ "")
    (hapid : req.body.appointment_id = some apid) (hapid2 : apid ≠ "")
    (ha : findApptById db apid = some a) :
    module_exports env req db =
      .responded ⟨200, .message "Appointment updated successfully"⟩
        { db with
          appointments := updateFirst (fun x => x._id == apid)
            (fun x => { x with account_id := aid }) db.appointments }
    ∧ ({ db with
          appointments := updateFirst (fun x => x._id == apid)
            (fun x => { x with account_id := aid }) db.appointments } : DB).users
        = db.users
    ∧ (updateFirst (fun x => x._id == apid)
        (fun x => { x with account_id := aid }) db.appointments).find?
        (fun x => x._id == apid) = some { a with account_id := aid } := by
  refine ⟨?_, rfl, ?_⟩
  · rw [dispatch_update env req db hm hr hcf,
      runUpdate_success env req db c u a aid apid hd he hu
        (checkAuthorization_pass _ hrole) haid haid2 hapid hapid2 ha]
    rfl
  · have ha' := ha
    simp only [findApptById] at ha'
    refine updateFirst_find? _ _ _ a ha' ?_
    simpa using List.find?_some ha'

/-- Witness for `reassign_updates_only_appointment`: move `a1` to `u2`. -/
theorem reassign_updates_only_appointment_witness :
    module_exports envW reqUpdateW dbW =
      .responded ⟨200, .message "Appointment updated successfully"⟩
        { dbW with
          appointments := updateFirst (fun x => x._id == "a1")
            (fun x => { x with account_id := "u2" }) dbW.appointments }
    ∧ ({ dbW with
          appointments := updateFirst (fun x => x._id == "a1")
            (fun x => { x with account_id := "u2" }) dbW.appointments } : DB).users
        = dbW.users
    ∧ (updateFirst (fun x => x._id == "a1")
        (fun x => { x with account_id := "u2" }) dbW.appointments).find?
        (fun x => x._id == "a1")
        = some ⟨"a1", "Captain", "Officer", "u2"⟩ :=
  reassign_updates_only_appointment envW reqUpdateW dbW ⟨"u1", 100, false⟩
    ⟨"u1", "Alice", "Officer", some "Captain"⟩ ⟨"a1", "Captain", "Officer", "u1"⟩
    "u2" "a1" rfl rfl rfl rfl rfl rfl (Or.inl rfl)
    rfl (by decide) rfl (by decide) rfl

/-- C8: a List request with a valid credential responds 200 with every
appointment in the store's natural order, each enriched with the holder's
`account_name` and canonical id when the referenced account exists and
returned unmodified when it does not; the store is unchanged. -/
theorem list_enriched_all
    (env : Env) (req : Req) (db : DB) (c : Claims)
    (hm : req.method = "GET") (hr : req.route = some "/get_appointments")
    (hcf : env.connectFails = false)
    (hd : decodeJWT env db req.token = .ok c) :
    module_exports env req db =
      .responded ⟨200, .list (db.appointments.map (enrich db))⟩ db
    ∧ (∀ a u, db.users.find? (fun x => x._id == a.account_id) = some u →
        enrich db a = .enriched a u.account_name u._id)
    ∧ (∀ a, db.users.find? (fun x => x._id == a.account_id) = none →
        enrich db a = .plain a) := by
  refine ⟨?_, ?_, ?_⟩
  · rw [dispatch_get env req db hm hr hcf, runGet_ok env req db c hd]
    rfl
  · intro a u h
    simp [enrich, h]
  · intro a h
    simp [enrich, h]

/-- Witness for `list_enriched_all`: `a1`, `a2` enriched; `a3`'s holder is
gone, so it is listed unenriched. -/
theorem list_enriched_all_witness :
    module_exports envW reqGetW dbW =
      .responded ⟨200, .list (dbW.appointments.map (enrich dbW))⟩ dbW :=
  (list_enriched_all envW reqGetW dbW ⟨"u1", 100, false⟩ rfl rfl rfl rfl).1

/-- C9 (code bug): a store-connectivity fault reaches the final catch
block, which itself faults (`handleServerError` is undefined and
`err.response` is too) — the invocation crashes with no response sent, in
particular no generic 500. -/
theorem catch_block_crashes_on_store_fault :
    module_exports envConnFail reqGetW dbW = .crashed none dbW := rfl

/-- C10: a successful Delete of an unprotected appointment erases only that
appointment record; the users collection is untouched, so an account whose
denormalized field held the deleted appointment's name still holds it
(stale) afterwards. -/
theorem delete_unprotected_frame
    (env : Env) (req : Req) (db : DB) (c : Claims) (u : User) (a : Appt)
    (apid : String)
    (hm : req.method = "DELETE") (hr : req.route = some "/delete_appointment")
    (hcf : env.connectFails = false)
    (hd : decodeJWT env db req.token = .ok c) (he : c.error = false)
    (hu : findUserById db (some c.id) = some u)
    (hrole : u.account_type = "Officer" ∨ u.account_type = "Admin")
    (hq : req.queryId = some apid) (hq2 : apid ≠ "")
    (ha : findApptById db apid = some a)
    (hp : protectedNames.contains (toLowerCase a.appointment_name) = false) :
    module_exports env req db =
      .responded ⟨200, .message "Appointment deleted successfully"⟩
        { db with
          appointments := db.appointments.eraseP (fun x => x._id == apid) }
    ∧ ({ db with
          appointments := db.appointments.eraseP (fun x => x._id == apid) } : DB).users
        = db.users
    ∧ (∀ v, v ∈ db.users → v.appointment = some a.appointment_name →
        v ∈ ({ db with
          appointments := db.appointments.eraseP (fun x => x._id == apid) } : DB).users)
    := by
  refine ⟨?_, rfl, fun v hv _ => hv⟩
  rw [dispatch_delete env req db hm hr hcf,
    runDelete_success env req db c u a apid hd he hu
      (checkAuthorization_pass _ hrole) hq hq2 ha hp]
  rfl

/-- Witness for `delete_unprotected_frame`: delete `a2` ("Quartermaster"),
whose holder `u2` keeps whatever its denormalized field held. -/
theorem delete_unprotected_frame_witness :
    module_exports envW reqDeleteW dbW =
      .responded ⟨200, .message "Appointment deleted successfully"⟩
        { dbW with
          appointments := dbW.appointments.eraseP (fun x => x._id == "a2") }
    ∧ ({ dbW with
          appointments := dbW.appointments.eraseP (fun x => x._id == "a2") } : DB).users
        = dbW.users :=
  ⟨(delete_unprotected_frame envW reqDeleteW dbW ⟨"u1", 100, false⟩
      ⟨"u1", "Alice", "Officer", some "Captain"⟩
      ⟨"a2", "Quartermaster", "Boy", "u2"⟩ "a2" rfl rfl rfl rfl rfl rfl
      (Or.inl rfl) rfl (by decide) rfl rfl).1,
   (delete_unprotected_frame envW reqDeleteW dbW ⟨"u1", 100, false⟩
      ⟨"u1", "Alice", "Officer", some "Captain"⟩
      ⟨"a2", "Quartermaster", "Boy", "u2"⟩ "a2" rfl rfl rfl rfl rfl rfl
      (Or.inl rfl) rfl (by decide) rfl rfl).2.1⟩

end Appointment
